import Mathlib

/-!
Verification of the Inference_Blueprints repository's shared core:
tiered authentication resolution (Keycloak → static API key → open mode),
base-URL normalization, retry-wrapped generation calls, markdown fence
stripping, and bounded-concurrency batch speech generation.

Python strings are embedded as `List Char` so that truthiness, slicing and
suffix tests mirror the source exactly.  Each embedded definition carries a
comment naming the source function it translates.
-/

/-- Python strings, embedded as lists of characters. -/
abbrev PyStr := List Char

/-- Python truthiness of a string: `""` is falsy, everything else truthy. -/
def pyTruthy (s : PyStr) : Bool := !s.isEmpty

/-- Python truthiness of an optional string: `None` and `""` are falsy. -/
def optTruthy : Option PyStr → Bool
  | none => false
  | some s => pyTruthy s

/-- Characters removed by Python's `str.strip()` (ASCII whitespace). -/
def pyIsWS (c : Char) : Bool :=
  c = ' ' || c = '\t' || c = '\n' || c = '\r' || c = '\x0b' || c = '\x0c'

/-- Python `s.lstrip()`. -/
def pyLstrip (s : PyStr) : PyStr := s.dropWhile pyIsWS

/-- Python `s.rstrip()`. -/
def pyRstrip (s : PyStr) : PyStr := (s.reverse.dropWhile pyIsWS).reverse

/-- Python `s.strip()`. -/
def pyStrip (s : PyStr) : PyStr := pyRstrip (pyLstrip s)

/-- Python `s.rstrip("/")`. -/
def pyRstripSlash (s : PyStr) : PyStr :=
  (s.reverse.dropWhile (fun c => c = '/')).reverse

/-- Python `s.lstrip("/")`. -/
def pyLstripSlash (s : PyStr) : PyStr := s.dropWhile (fun c => c = '/')

/-- Python `s.strip("/")`. -/
def pyStripSlash (s : PyStr) : PyStr := pyRstripSlash (pyLstripSlash s)

/-- Outcome of the `requests.post(token_url, ...)` call against the Keycloak
token endpoint: HTTP status plus the optional `access_token` field of the
JSON body (`None` when the key is absent). -/
structure TokenHttpResponse where
  status : Nat
  access_token : Option PyStr
deriving DecidableEq

/-- The network world seen by one token request: `none` models a raised
`requests` exception (network error, timeout, bad URL), `some r` a response. -/
abbrev TokenWorld := Option TokenHttpResponse

/-- Auth-resolution trace events: a `requests.post` to the token endpoint was
executed, the static-API-key tier check was reached, the open tier was
reached. -/
inductive AuthEvent
  | tokenRequest
  | apiKeyTier
  | openTier
deriving DecidableEq

/-- Configuration surface read by `code-translation/api/services/api_client.py`
and `doc-summarization/backend/api_client.py` (env-driven strings, `""` when
unset). -/
structure GwConfig where
  BASE_URL : PyStr
  KEYCLOAK_CLIENT_ID : PyStr
  KEYCLOAK_CLIENT_SECRET : PyStr
  INFERENCE_API_KEY : PyStr
  INFERENCE_MODEL_ENDPOINT : PyStr
deriving DecidableEq

/-- State of `code-translation` `APIClient` after `_init_auth`. -/
structure CTClient where
  base_url : PyStr
  token : Option PyStr
  api_key : PyStr
  auth_mode : PyStr
deriving DecidableEq

/-- Tier-1 guard of `code-translation` `APIClient._init_auth` (lines 38-42):
`self.base_url and KEYCLOAK_CLIENT_ID and KEYCLOAK_CLIENT_SECRET`. -/
def ctKeycloakConfigured (cfg : GwConfig) : Bool :=
  pyTruthy cfg.BASE_URL && pyTruthy cfg.KEYCLOAK_CLIENT_ID &&
    pyTruthy cfg.KEYCLOAK_CLIENT_SECRET

/-- Tiers 2 and 3 of `code-translation` `APIClient._init_auth`
(lines 70-78): `if self.api_key: auth_mode = "api_key"` else
`auth_mode = "open"`. -/
def ctFallthrough (c : CTClient) : CTClient × List AuthEvent :=
  if pyTruthy c.api_key then
    ({ c with auth_mode := "api_key".data }, [AuthEvent.apiKeyTier])
  else
    ({ c with auth_mode := "open".data }, [AuthEvent.apiKeyTier, AuthEvent.openTier])

/-- `code-translation` `APIClient._init_auth` (lines 35-78), instrumented
with the trace of tier events.  On HTTP 200 the token is stored and checked
for truthiness before `auth_mode = "keycloak"`; every failure falls through
to `ctFallthrough`. -/
def ctInitAuth (cfg : GwConfig) (world : TokenWorld) : CTClient × List AuthEvent :=
  let c0 : CTClient :=
    { base_url := cfg.BASE_URL, token := none,
      api_key := cfg.INFERENCE_API_KEY, auth_mode := "open".data }
  if ctKeycloakConfigured cfg then
    match world with
    | some resp =>
      if resp.status == 200 then
        let c1 := { c0 with token := resp.access_token }
        if optTruthy resp.access_token then
          ({ c1 with auth_mode := "keycloak".data }, [AuthEvent.tokenRequest])
        else
          let r := ctFallthrough c1
          (r.1, AuthEvent.tokenRequest :: r.2)
      else
        let r := ctFallthrough c0
        (r.1, AuthEvent.tokenRequest :: r.2)
    | none =>
      let r := ctFallthrough c0
      (r.1, AuthEvent.tokenRequest :: r.2)
  else
    ctFallthrough c0

/-- State of `doc-summarization` `APIClient` after `_init_auth`. -/
structure DSClient where
  base_url : PyStr
  token : Option PyStr
  api_key : PyStr
  auth_mode : PyStr
deriving DecidableEq

/-- `doc-summarization/backend/api_client.py` `APIClient._init_auth`
(lines 30-72).  NOTE (faithful to the source): on HTTP 200 the code stores
`response.json().get("access_token")` and sets `auth_mode = "keycloak"`
and returns WITHOUT checking that the token is present (lines 50-54). -/
def dsInitAuth (cfg : GwConfig) (world : TokenWorld) : DSClient × List AuthEvent :=
  let c0 : DSClient :=
    { base_url := cfg.BASE_URL, token := none,
      api_key := cfg.INFERENCE_API_KEY, auth_mode := "open".data }
  let fall : DSClient → DSClient × List AuthEvent := fun c =>
    if pyTruthy c.api_key then
      ({ c with auth_mode := "api_key".data }, [AuthEvent.apiKeyTier])
    else
      ({ c with auth_mode := "open".data }, [AuthEvent.apiKeyTier, AuthEvent.openTier])
  if pyTruthy cfg.BASE_URL && pyTruthy cfg.KEYCLOAK_CLIENT_ID &&
      pyTruthy cfg.KEYCLOAK_CLIENT_SECRET then
    match world with
    | some resp =>
      if resp.status == 200 then
        ({ c0 with token := resp.access_token, auth_mode := "keycloak".data },
          [AuthEvent.tokenRequest])
      else
        let r := fall c0
        (r.1, AuthEvent.tokenRequest :: r.2)
    | none =>
      let r := fall c0
      (r.1, AuthEvent.tokenRequest :: r.2)
  else
    fall c0

/-- Configuration surface read by `rag-chatbot/api/services/api_client.py`. -/
structure RagConfig where
  BASE_URL : PyStr
  EMBEDDINGS_BASE_URL : PyStr
  KEYCLOAK_CLIENT_ID : PyStr
  KEYCLOAK_CLIENT_SECRET : PyStr
  INFERENCE_API_KEY : PyStr
deriving DecidableEq

/-- `rag-chatbot` `APIClient._try_keycloak_token` (lines 27-57).  The guard
(lines 27-29) checks ONLY the client id and secret; when both are truthy the
`requests.post` call is executed regardless of `BASE_URL`.  Returns the
token only on HTTP 200 with a truthy `access_token`. -/
def ragTryKeycloakToken (cfg : RagConfig) (world : TokenWorld) :
    Option PyStr × List AuthEvent :=
  if !(pyTruthy cfg.KEYCLOAK_CLIENT_ID && pyTruthy cfg.KEYCLOAK_CLIENT_SECRET) then
    (none, [])
  else
    match world with
    | none => (none, [AuthEvent.tokenRequest])
    | some resp =>
      if resp.status != 200 then (none, [AuthEvent.tokenRequest])
      else if optTruthy resp.access_token then
        (resp.access_token, [AuthEvent.tokenRequest])
      else (none, [AuthEvent.tokenRequest])

/-- State of `rag-chatbot` `APIClient` after `_configure_auth`. -/
structure RagClient where
  base_url : PyStr
  embeddings_base_url : PyStr
  api_key : Option PyStr
  auth_mode : PyStr
deriving DecidableEq

/-- The `ValueError` message raised by `rag-chatbot` `_configure_auth`. -/
def ragNoAuthMsg : PyStr :=
  "No gateway auth. Set KEYCLOAK_CLIENT_ID and KEYCLOAK_CLIENT_SECRET or INFERENCE_API_KEY.".data

/-- `rag-chatbot` `APIClient.__init__` plus `_configure_auth` (lines 13-76):
base URLs are `rstrip("/")`-ed, then Keycloak is tried, then the static
`INFERENCE_API_KEY`; with neither, a `ValueError` is raised. -/
def ragConfigureAuth (cfg : RagConfig) (world : TokenWorld) :
    Except PyStr RagClient × List AuthEvent :=
  let bu := pyRstripSlash cfg.BASE_URL
  let ebu := pyRstripSlash cfg.EMBEDDINGS_BASE_URL
  let r := ragTryKeycloakToken cfg world
  match r.1 with
  | some t =>
    (Except.ok { base_url := bu, embeddings_base_url := ebu,
                 api_key := some t, auth_mode := "keycloak".data }, r.2)
  | none =>
    if pyTruthy cfg.INFERENCE_API_KEY then
      (Except.ok { base_url := bu, embeddings_base_url := ebu,
                   api_key := some cfg.INFERENCE_API_KEY,
                   auth_mode := "inference_api_key".data },
        r.2 ++ [AuthEvent.apiKeyTier])
    else
      (Except.error ragNoAuthMsg, r.2 ++ [AuthEvent.apiKeyTier])

/-- Configuration surface of `pdf-podcast/api/llm-service/app/config.py`
read by `LLMClient.__init__` (pydantic settings; `Optional[str]` fields). -/
structure LLMSettings where
  BASE_URL : Option PyStr
  INFERENCE_API_KEY : Option PyStr
  KEYCLOAK_CLIENT_ID : PyStr
  KEYCLOAK_CLIENT_SECRET : Option PyStr
deriving DecidableEq

/-- State of `pdf-podcast` `LLMClient` after `__init__`:
`clientConfigured` models `self.client is not None`. -/
structure LLMClientState where
  base_url : Option PyStr
  api_key : Option PyStr
  auth_mode : PyStr
  clientConfigured : Bool
deriving DecidableEq

/-- `pdf-podcast` `LLMClient._try_keycloak_token` (lines 79-112): single
`requests.post`; a token is returned only on HTTP 200 with a truthy
`access_token`; every failure yields `None`. -/
def llmTryKeycloakToken (base_url : Option PyStr) (world : TokenWorld) : Option PyStr :=
  match base_url with
  | none => none
  | some _ =>
    match world with
    | none => none
    | some resp =>
      if resp.status == 200 then
        if optTruthy resp.access_token then resp.access_token else none
      else none

/-- `pdf-podcast` `LLMClient.__init__` (lines 17-77): requires `BASE_URL`;
tier 1 Keycloak when client id and secret are truthy, tier 2
`INFERENCE_API_KEY`; with neither, the client stays unconfigured
(`self.client = None`, no exception and no open mode). -/
def llmInit (s : LLMSettings) (world : TokenWorld) : LLMClientState :=
  let base_url : Option PyStr :=
    if optTruthy s.BASE_URL then some (pyRstripSlash (s.BASE_URL.getD [])) else none
  match base_url with
  | none => { base_url := none, api_key := none, auth_mode := "none".data,
              clientConfigured := false }
  | some b =>
    let tier1 : Option PyStr × PyStr :=
      if pyTruthy s.KEYCLOAK_CLIENT_ID && optTruthy s.KEYCLOAK_CLIENT_SECRET then
        match llmTryKeycloakToken (some b) world with
        | some t => (some t, "keycloak".data)
        | none => (none, "none".data)
      else (none, "none".data)
    let tier2 : Option PyStr × PyStr :=
      if !optTruthy tier1.1 && optTruthy s.INFERENCE_API_KEY then
        (s.INFERENCE_API_KEY, "inference_api_key".data)
      else tier1
    if !optTruthy tier2.1 then
      { base_url := some b, api_key := tier2.1, auth_mode := tier2.2,
        clientConfigured := false }
    else
      { base_url := some b, api_key := tier2.1, auth_mode := tier2.2,
        clientConfigured := true }

/-- Shape of an OpenAI-style chat-completion response as consumed by the
clients: `response.choices[i].message.content`. -/
structure ChatMessage where
  content : Option PyStr
deriving DecidableEq

/-- One entry of `response.choices`. -/
structure ChatChoice where
  message : ChatMessage
deriving DecidableEq

/-- An OpenAI-style chat response; the remote call itself may instead raise,
modelled by `Except PyStr ChatResponse`. -/
structure ChatResponse where
  choices : List ChatChoice
deriving DecidableEq

/-- Python `x or ""` applied to an optional message content
(`content or ""`): `None` and `""` both give `""`. -/
def pyOrEmpty : Option PyStr → PyStr
  | none => []
  | some s => if pyTruthy s then s else []

/-- The triple-backtick fence looked for by `_strip_code_fences`. -/
def fenceStr : PyStr := "```".data

/-- The known bare language tags of `_strip_code_fences` (line 188). -/
def langTags : List PyStr :=
  ["python".data, "java".data, "c".data, "cpp".data, "rust".data,
   "go".data, "ts".data, "js".data, "javascript".data, "csharp".data]

/-- Python `s[3:-3]` as used on the fenced string. -/
def pyCore3 (s : PyStr) : PyStr := (s.drop 3).take (s.length - 6)

/-- `code-translation` `APIClient._strip_code_fences` (lines 173-191):
strip surrounding whitespace; remove one pair of enclosing ``` fences when
both present; then, if the first line (up to the first newline) is a bare
language tag, drop that line and left-strip the rest. -/
def stripCodeFences (text : PyStr) : PyStr :=
  let s0 := pyStrip text
  let s1 :=
    if fenceStr.isPrefixOf s0 && fenceStr.isSuffixOf s0 then pyStrip (pyCore3 s0)
    else s0
  match List.findIdx? (fun c => c = '\n') s1 with
  | none => s1
  | some i =>
    let firstLine := (pyStrip (s1.take i)).map Char.toLower
    if langTags.contains firstLine then pyLstrip (s1.drop (i + 1)) else s1

/-- One attempt of `code-translation` `APIClient.translate_code`
(lines 149-171): a raised exception is logged and re-raised; a response
without choices returns `""`; otherwise `choices[0].message.content or ""`
is fence-stripped. -/
def ctTranslateAttempt (r : Except PyStr ChatResponse) : Except PyStr PyStr :=
  match r with
  | Except.error e => Except.error e
  | Except.ok resp =>
    match resp.choices with
    | [] => Except.ok []
    | c :: _ => Except.ok (stripCodeFences (pyOrEmpty c.message.content))

/-- `code-translation` `APIClient.translate_code` issues exactly one remote
call (no retry decorator): the oracle `atts i` gives the outcome the i-th
attempt would have, and the function consumes only attempt 0. -/
def ctTranslateCode (atts : Nat → Except PyStr ChatResponse) : Except PyStr PyStr :=
  ctTranslateAttempt (atts 0)

/-- `rag-chatbot` `APIClient.complete` (lines 132-154): one remote call;
empty `choices` returns `""`; otherwise `content if content else ""`;
exceptions re-raised. -/
def ragComplete (r : Except PyStr ChatResponse) : Except PyStr PyStr :=
  match r with
  | Except.error e => Except.error e
  | Except.ok resp =>
    match resp.choices with
    | [] => Except.ok []
    | c :: _ => Except.ok (pyOrEmpty c.message.content)

/-- One attempt of `pdf-podcast` `LLMClient.generate_with_openai`
(lines 145-162): `response.choices[0]` raises `IndexError` on an empty
`choices` list; `len(content)` raises `TypeError` when `content` is `None`;
both are logged and re-raised (and hence retried by the decorator). -/
def llmSingleCall (r : Except PyStr ChatResponse) : Except PyStr PyStr :=
  match r with
  | Except.error e => Except.error e
  | Except.ok resp =>
    match resp.choices with
    | [] => Except.error "IndexError: list index out of range".data
    | c :: _ =>
      match c.message.content with
      | none => Except.error "TypeError: object of type NoneType has no len()".data
      | some s => Except.ok s

/-- tenacity `stop_after_attempt` semantics: run attempts `i, i+1, ...`
until one succeeds or the given number of attempts is exhausted; the last
attempt's error is then surfaced (tenacity wraps it in a `RetryError`
carrying that final exception). -/
def tenacityRetryFrom (atts : Nat → Except PyStr PyStr) : Nat → Nat → Except PyStr PyStr
  | i, 0 => atts i
  | i, 1 => atts i
  | i, n + 2 =>
    match atts i with
    | Except.ok a => Except.ok a
    | Except.error _ => tenacityRetryFrom atts (i + 1) (n + 1)

/-- tenacity `wait_exponential(multiplier=1, min=4, max=10)` (llm_client.py
line 116): the wait after failed attempt number `n` is
`max(min, min(multiplier * 2^n, max))`, in seconds. -/
def tenacityWaitExp (n : Nat) : Nat := max 4 (min (1 * 2 ^ n) 10)

/-- `pdf-podcast` `LLMClient.generate_with_openai` (lines 114-162): raises
`ValueError` when the client is unconfigured; otherwise the single call is
wrapped in `@retry(stop=stop_after_attempt(3), wait=wait_exponential(...))`. -/
def llmGenerate (clientConfigured : Bool) (atts : Nat → Except PyStr ChatResponse) :
    Except PyStr PyStr :=
  if clientConfigured then
    tenacityRetryFrom (fun i => llmSingleCall (atts i)) 0 3
  else
    Except.error "LLM client is not configured.".data

/-- The pieces of the OpenAI-SDK client object that the repository
constructs: the bearer key and the final base URL. -/
structure OpenAIClientCfg where
  api_key : PyStr
  base_url_full : PyStr
deriving DecidableEq

/-- `code-translation` `APIClient._get_openai_client` (lines 80-111):
`ValueError` when `BASE_URL` is unset; key is the Keycloak token, the static
key, or the `"no-auth"` sentinel; the endpoint path is `strip("/")`-ed and
joined to the `rstrip("/")`-ed base URL. -/
def ctGetOpenaiClient (c : CTClient) (endpoint : PyStr) : Except PyStr OpenAIClientCfg :=
  if !pyTruthy c.base_url then
    Except.error "BASE_URL is not configured in config.py".data
  else
    let key :=
      if c.auth_mode == "keycloak".data && optTruthy c.token then c.token.getD []
      else if c.auth_mode == "api_key".data && pyTruthy c.api_key then c.api_key
      else "no-auth".data
    let ep := pyStripSlash endpoint
    let full :=
      if pyTruthy ep then pyRstripSlash c.base_url ++ "/".data ++ ep
      else pyRstripSlash c.base_url
    Except.ok { api_key := key, base_url_full := full }

/-- The `/v1` canonical suffix. -/
def v1Suffix : PyStr := "/v1".data

/-- `rag-chatbot` `APIClient._normalize_base` (lines 78-81): append `/v1`
unless the URL already ends with it.  (The trailing slash of the configured
base URL was already removed in `__init__` via `rstrip("/")`.) -/
def ragNormalizeBase (url : PyStr) : PyStr :=
  if v1Suffix.isSuffixOf url then url else url ++ v1Suffix

/-- `pdf-podcast` `TTSClient.__init__` base-URL normalization (lines 40-45):
`base = base_url.rstrip("/")`, then a single `/v1` is appended unless
already present. -/
def ttsFinalBase (base_url : PyStr) : PyStr :=
  let base := pyRstripSlash base_url
  if v1Suffix.isSuffixOf base then base else base ++ v1Suffix

/-- Zero-padded index as in Python `f"segment_{i:03d}"`. -/
def pad3 (n : Nat) : PyStr :=
  let d := Nat.toDigits 10 n
  List.replicate (3 - d.length) '0' ++ d

/-- The file name `f"segment_{i:03d}.mp3"` used by `generate_speech_batch`. -/
def segmentName (i : Nat) : PyStr := "segment_".data ++ pad3 i ++ ".mp3".data

/-- The output slot `output_dir / f"segment_{i:03d}.mp3"` pre-allocated for
job `i` (posix path join). -/
def segmentPath (dir : PyStr) (i : Nat) : PyStr := dir ++ "/".data ++ segmentName i

/-- `pdf-podcast` `TTSClient.generate_speech_batch` (lines 169-203): the
returned value.  The loop runs over `enumerate(zip(texts, voices))`, so the
output-path list is built, in index order and before any dispatch, with one
slot per zipped pair; the function returns `output_paths` (not the gather
results), independent of completion order. -/
def generateSpeechBatchPaths (dir : PyStr) (texts voices : List PyStr) : List PyStr :=
  (List.zip texts voices).enum.map (fun p => segmentPath dir p.1)

/-- Scheduler choices for the batch fan-out: start the next pending job
(which first acquires the semaphore) or let a running job finish (which
releases it).  An arbitrary `List SchedChoice` models an arbitrary
completion order chosen by the asyncio event loop. -/
inductive SchedChoice
  | start
  | finish (j : Nat)
deriving DecidableEq

/-- State of the batch fan-out: jobs not yet started, jobs currently holding
the semaphore (their `generate_speech` call is in flight), jobs finished. -/
structure BatchState where
  pending : List Nat
  running : List Nat
  done : List Nat
deriving DecidableEq

/-- Initial state of `generate_speech_batch` with `n` jobs: everything
pending, nothing in flight. -/
def batchInit (n : Nat) : BatchState :=
  { pending := List.range n, running := [], done := [] }

/-- One scheduler step of the `async with semaphore` gate
(`asyncio.Semaphore(settings.MAX_CONCURRENT_REQUESTS)`, lines 194-200):
a job may start only when fewer than `L` jobs hold the semaphore; finishing
a running job releases it.  Disabled choices are no-ops (the event loop
keeps the coroutine suspended on `semaphore.acquire`). -/
def batchStep (L : Nat) (s : BatchState) : SchedChoice → BatchState
  | SchedChoice.start =>
    match s.pending with
    | [] => s
    | j :: rest =>
      if s.running.length < L then
        { pending := rest, running := j :: s.running, done := s.done }
      else s
  | SchedChoice.finish j =>
    if j ∈ s.running then
      { pending := s.pending, running := s.running.erase j, done := j :: s.done }
    else s

/-- Execution of the batch under an arbitrary scheduler. -/
def execBatch (L n : Nat) (sched : List SchedChoice) : BatchState :=
  sched.foldl (batchStep L) (batchInit n)

theorem batchStep_running_le (L : Nat) (s : BatchState) (c : SchedChoice)
    (h : s.running.length ≤ L) : (batchStep L s c).running.length ≤ L := by
  cases c with
  | start =>
    cases hp : s.pending with
    | nil => simpa [batchStep, hp] using h
    | cons j rest =>
      by_cases hl : s.running.length < L
      · simp [batchStep, hp, hl]
        omega
      · simpa [batchStep, hp, hl] using h
  | finish j =>
    simp only [batchStep]
    by_cases hj : j ∈ s.running
    · rw [if_pos hj]
      exact le_trans (List.length_erase_le j s.running) h
    · rw [if_neg hj]
      exact h

theorem foldl_batchStep_running_le (L : Nat) (sched : List SchedChoice)
    (s : BatchState) (h : s.running.length ≤ L) :
    (sched.foldl (batchStep L) s).running.length ≤ L := by
  induction sched generalizing s with
  | nil => simpa using h
  | cons c cs ih => exact ih _ (batchStep_running_le L s c h)

theorem execBatch_running_le (L n : Nat) (sched : List SchedChoice) :
    (execBatch L n sched).running.length ≤ L := by
  have h0 : (batchInit n).running.length ≤ L := by simp [batchInit]
  exact foldl_batchStep_running_le L sched _ h0

theorem enum_map_fst_apply {α β : Type} (l : List α) (f : Nat → β) :
    l.enum.map (fun p => f p.1) = (List.range l.length).map f := by
  rw [← List.enum_map_fst l, List.map_map]
  rfl

theorem generateSpeechBatchPaths_eq_range (dir : PyStr) (texts voices : List PyStr) :
    generateSpeechBatchPaths dir texts voices =
      (List.range (List.zip texts voices).length).map (segmentPath dir) := by
  unfold generateSpeechBatchPaths
  exact enum_map_fst_apply _ _

theorem v1Suffix_isSuffixOf_append (u : PyStr) :
    v1Suffix.isSuffixOf (u ++ v1Suffix) = true := by
  rw [List.isSuffixOf_iff_suffix]
  exact List.suffix_append u v1Suffix

theorem pyRstripSlash_of_v1 (s : PyStr) (h : v1Suffix.isSuffixOf s = true) :
    pyRstripSlash s = s := by
  rw [List.isSuffixOf_iff_suffix] at h
  obtain ⟨t, rfl⟩ := h
  simp [pyRstripSlash, v1Suffix, List.reverse_append, List.dropWhile]

theorem ragNormalizeBase_endsWith_v1 (u : PyStr) :
    v1Suffix.isSuffixOf (ragNormalizeBase u) = true := by
  unfold ragNormalizeBase
  by_cases h : v1Suffix.isSuffixOf u = true
  · rw [if_pos h]; exact h
  · rw [if_neg h]; exact v1Suffix_isSuffixOf_append u

theorem ragNormalizeBase_of_v1 (s : PyStr) (h : v1Suffix.isSuffixOf s = true) :
    ragNormalizeBase s = s := by
  unfold ragNormalizeBase
  rw [if_pos h]

theorem ttsFinalBase_endsWith_v1 (u : PyStr) :
    v1Suffix.isSuffixOf (ttsFinalBase u) = true := by
  unfold ttsFinalBase
  by_cases h : v1Suffix.isSuffixOf (pyRstripSlash u) = true
  · rw [if_pos h]; exact h
  · rw [if_neg h]; exact v1Suffix_isSuffixOf_append (pyRstripSlash u)

theorem ttsFinalBase_of_v1 (s : PyStr) (h : v1Suffix.isSuffixOf s = true) :
    ttsFinalBase s = s := by
  unfold ttsFinalBase
  rw [pyRstripSlash_of_v1 s h, if_pos h]

theorem pyRstripSlash_append_slash (u : PyStr) :
    pyRstripSlash (u ++ ['/']) = pyRstripSlash u := by
  simp [pyRstripSlash, List.reverse_append, List.dropWhile]

/-- C6: batch generation never has more than the concurrency limit
(`MAX_CONCURRENT_REQUESTS`) of remote calls in flight simultaneously — for
every scheduler interleaving, at most `L` jobs hold the semaphore — and the
returned list is index-aligned with the zipped input list: slot `i`, built
before dispatch, is `output_dir/segment_{i:03d}.mp3`, independent of the
order in which jobs complete. -/
theorem batch_concurrency_bound_and_index_alignment
    (L : Nat) (dir : PyStr) (texts voices : List PyStr) (sched : List SchedChoice) :
    (execBatch L (List.zip texts voices).length sched).running.length ≤ L ∧
    generateSpeechBatchPaths dir texts voices =
      (List.range (List.zip texts voices).length).map (segmentPath dir) :=
  ⟨execBatch_running_le L _ sched, generateSpeechBatchPaths_eq_range dir texts voices⟩

/-- C7 (counterexample): the fence stripper is NOT idempotent.  On
`"``````x``````"` one application yields `"```x```"` and a second one
yields `"x"`. -/
theorem strip_code_fences_not_idempotent :
    stripCodeFences (stripCodeFences "``````x``````".data) ≠
      stripCodeFences "``````x``````".data := by
  decide

/-- C7 (amended): `_strip_code_fences` is a no-op on clean text — text that
is already whitespace-trimmed, is not enclosed in a pair of triple-backtick
fences, and whose first line is not a bare language tag.  (Full idempotence
fails; see the counterexample.) -/
theorem strip_code_fences_noop_on_clean_text (s : PyStr)
    (h1 : pyStrip s = s)
    (h2 : (fenceStr.isPrefixOf s && fenceStr.isSuffixOf s) = false)
    (h3 : ∀ i, List.findIdx? (fun c => c = '\n') s = some i →
          langTags.contains ((pyStrip (s.take i)).map Char.toLower) = false) :
    stripCodeFences s = s := by
  simp only [stripCodeFences]
  rw [h1, h2]
  simp only [Bool.false_eq_true, if_false]
  cases hfi : List.findIdx? (fun c => c = '\n') s with
  | none => rfl
  | some i => dsimp only; rw [h3 i hfi]; simp

/-- C7 witness: the amended no-op property at the concrete clean input
`"print(1)"`. -/
theorem strip_code_fences_noop_on_clean_text_witness :
    stripCodeFences "print(1)".data = "print(1)".data :=
  strip_code_fences_noop_on_clean_text "print(1)".data (by decide) (by decide)
    (by
      intro i h
      have hn : List.findIdx? (fun c => c = '\n') "print(1)".data = none := by decide
      rw [hn] at h
      exact Option.noConfusion h)

/-- C8 (counterexample): normalization does not always produce a URL ending
in exactly one `/v1` suffix: a base URL already ending in `/v1/v1` is
returned unchanged, so the output ends in a duplicated suffix. -/
theorem normalize_base_preserves_duplicate_v1 :
    ragNormalizeBase "http://h/v1/v1".data = "http://h/v1/v1".data ∧
    List.isSuffixOf "/v1/v1".data (ragNormalizeBase "http://h/v1/v1".data) = true ∧
    ttsFinalBase "http://h/v1/v1".data = "http://h/v1/v1".data := by
  decide

/-- C8 (amended): base-URL normalization (rag-chatbot `_normalize_base` and
the TTS-client inline normalization) is idempotent, its output always ends
with `/v1`, it never appends a second `/v1` to a URL already ending in one,
and a trailing slash is trimmed before the suffix is appended; but an input
already ending in `/v1/v1` is kept as-is. -/
theorem normalize_base_idempotent_and_v1_suffix (u : PyStr) :
    ragNormalizeBase (ragNormalizeBase u) = ragNormalizeBase u ∧
    ttsFinalBase (ttsFinalBase u) = ttsFinalBase u ∧
    List.isSuffixOf v1Suffix (ragNormalizeBase u) = true ∧
    List.isSuffixOf v1Suffix (ttsFinalBase u) = true ∧
    ttsFinalBase (u ++ ['/']) = ttsFinalBase u :=
  ⟨ragNormalizeBase_of_v1 _ (ragNormalizeBase_endsWith_v1 u),
   ttsFinalBase_of_v1 _ (ttsFinalBase_endsWith_v1 u),
   ragNormalizeBase_endsWith_v1 u,
   ttsFinalBase_endsWith_v1 u,
   by unfold ttsFinalBase; rw [pyRstripSlash_append_slash]⟩

/-- C9 (counterexample): the pdf-podcast LLM generation call does NOT
return an empty string on a response without choices — `choices[0]` raises
`IndexError` on every one of the three attempts and the terminal error is
surfaced to the caller. -/
theorem llm_empty_choices_raises :
    llmGenerate true (fun _ => Except.ok { choices := [] }) =
      Except.error "IndexError: list index out of range".data := by
  rfl

/-- C9 (amended): on a response that arrives without any choices entry, the
code-translation and rag-chatbot completion calls return the empty string
without raising, while the pdf-podcast LLM call raises `IndexError`. -/
theorem empty_choices_completion_returns_empty_string
    (resp : ChatResponse) (h : resp.choices = []) :
    ctTranslateAttempt (Except.ok resp) = Except.ok [] ∧
    ragComplete (Except.ok resp) = Except.ok [] ∧
    llmSingleCall (Except.ok resp) =
      Except.error "IndexError: list index out of range".data := by
  simp [ctTranslateAttempt, ragComplete, llmSingleCall, h]

/-- C9 witness: the amended property at the concrete empty-choices
response. -/
theorem empty_choices_completion_returns_empty_string_witness :
    ctTranslateAttempt (Except.ok { choices := [] }) = Except.ok [] ∧
    ragComplete (Except.ok { choices := [] }) = Except.ok [] ∧
    llmSingleCall (Except.ok { choices := [] }) =
      Except.error "IndexError: list index out of range".data :=
  empty_choices_completion_returns_empty_string { choices := [] } rfl

/-- C10: batch speech generation silently processes only the first
`min(len(texts), len(voices))` pairs: the returned path list has exactly
that length and its `i`-th entry is the pre-allocated path for input `i`,
so surplus inputs of the longer list are dropped and equal-length inputs
get one path per input in input order. -/
theorem speech_batch_zip_truncation (dir : PyStr) (texts voices : List PyStr) :
    (generateSpeechBatchPaths dir texts voices).length =
      min texts.length voices.length ∧
    generateSpeechBatchPaths dir texts voices =
      (List.range (min texts.length voices.length)).map (segmentPath dir) := by
  have h := generateSpeechBatchPaths_eq_range dir texts voices
  rw [List.length_zip] at h
  exact ⟨by rw [h]; simp, h⟩

theorem optTruthy_some (s : PyStr) : optTruthy (some s) = pyTruthy s := rfl

theorem optTruthy_none : optTruthy none = false := rfl

/-- C1: for every configuration with baseUrl, Keycloak client id and client
secret all set, when the token endpoint responds HTTP 200 with a non-empty
`access_token`, auth resolution in the code-translation, rag-chatbot and
pdf-podcast LLM clients yields keycloak mode with that token as the
credential, and neither the static-API-key tier nor the open tier is
consulted (the event trace is exactly the one token request). -/
theorem keycloak_success_yields_keycloak_mode
    (cfg : GwConfig) (rcfg : RagConfig) (s : LLMSettings) (tok : PyStr)
    (h1 : pyTruthy cfg.BASE_URL = true)
    (h2 : pyTruthy cfg.KEYCLOAK_CLIENT_ID = true)
    (h3 : pyTruthy cfg.KEYCLOAK_CLIENT_SECRET = true)
    (h4 : pyTruthy rcfg.KEYCLOAK_CLIENT_ID = true)
    (h5 : pyTruthy rcfg.KEYCLOAK_CLIENT_SECRET = true)
    (h6 : optTruthy s.BASE_URL = true)
    (h7 : pyTruthy s.KEYCLOAK_CLIENT_ID = true)
    (h8 : optTruthy s.KEYCLOAK_CLIENT_SECRET = true)
    (htok : pyTruthy tok = true) :
    (ctInitAuth cfg (some { status := 200, access_token := some tok })).1.auth_mode =
        "keycloak".data ∧
    (ctInitAuth cfg (some { status := 200, access_token := some tok })).1.token =
        some tok ∧
    (ctInitAuth cfg (some { status := 200, access_token := some tok })).2 =
        [AuthEvent.tokenRequest] ∧
    (ragConfigureAuth rcfg (some { status := 200, access_token := some tok })).1 =
        Except.ok { base_url := pyRstripSlash rcfg.BASE_URL,
                    embeddings_base_url := pyRstripSlash rcfg.EMBEDDINGS_BASE_URL,
                    api_key := some tok, auth_mode := "keycloak".data } ∧
    (ragConfigureAuth rcfg (some { status := 200, access_token := some tok })).2 =
        [AuthEvent.tokenRequest] ∧
    (llmInit s (some { status := 200, access_token := some tok })).auth_mode =
        "keycloak".data ∧
    (llmInit s (some { status := 200, access_token := some tok })).api_key =
        some tok := by
  refine ⟨?_, ?_, ?_, ?_, ?_, ?_, ?_⟩ <;>
    simp [ctInitAuth, ctKeycloakConfigured, ragConfigureAuth, ragTryKeycloakToken,
          llmInit, llmTryKeycloakToken, optTruthy_some,
          h1, h2, h3, h4, h5, h6, h7, h8, htok]

/-- C1 witness: the keycloak-success resolution at a concrete configuration
and concrete 200 response. -/
theorem keycloak_success_yields_keycloak_mode_witness :
    (ctInitAuth { BASE_URL := "http://gw".data, KEYCLOAK_CLIENT_ID := "api".data,
                  KEYCLOAK_CLIENT_SECRET := "s3cr3t".data, INFERENCE_API_KEY := [],
                  INFERENCE_MODEL_ENDPOINT := [] }
        (some { status := 200, access_token := some "tok123".data })).1.auth_mode =
      "keycloak".data ∧
    (ctInitAuth { BASE_URL := "http://gw".data, KEYCLOAK_CLIENT_ID := "api".data,
                  KEYCLOAK_CLIENT_SECRET := "s3cr3t".data, INFERENCE_API_KEY := [],
                  INFERENCE_MODEL_ENDPOINT := [] }
        (some { status := 200, access_token := some "tok123".data })).1.token =
      some "tok123".data ∧
    (ctInitAuth { BASE_URL := "http://gw".data, KEYCLOAK_CLIENT_ID := "api".data,
                  KEYCLOAK_CLIENT_SECRET := "s3cr3t".data, INFERENCE_API_KEY := [],
                  INFERENCE_MODEL_ENDPOINT := [] }
        (some { status := 200, access_token := some "tok123".data })).2 =
      [AuthEvent.tokenRequest] ∧
    (ragConfigureAuth { BASE_URL := "http://gw".data,
                        EMBEDDINGS_BASE_URL := "http://emb".data,
                        KEYCLOAK_CLIENT_ID := "api".data,
                        KEYCLOAK_CLIENT_SECRET := "s3cr3t".data,
                        INFERENCE_API_KEY := [] }
        (some { status := 200, access_token := some "tok123".data })).1 =
      Except.ok { base_url := pyRstripSlash "http://gw".data,
                  embeddings_base_url := pyRstripSlash "http://emb".data,
                  api_key := some "tok123".data, auth_mode := "keycloak".data } ∧
    (ragConfigureAuth { BASE_URL := "http://gw".data,
                        EMBEDDINGS_BASE_URL := "http://emb".data,
                        KEYCLOAK_CLIENT_ID := "api".data,
                        KEYCLOAK_CLIENT_SECRET := "s3cr3t".data,
                        INFERENCE_API_KEY := [] }
        (some { status := 200, access_token := some "tok123".data })).2 =
      [AuthEvent.tokenRequest] ∧
    (llmInit { BASE_URL := some "http://gw".data, INFERENCE_API_KEY := none,
               KEYCLOAK_CLIENT_ID := "api".data,
               KEYCLOAK_CLIENT_SECRET := some "s3cr3t".data }
        (some { status := 200, access_token := some "tok123".data })).auth_mode =
      "keycloak".data ∧
    (llmInit { BASE_URL := some "http://gw".data, INFERENCE_API_KEY := none,
               KEYCLOAK_CLIENT_ID := "api".data,
               KEYCLOAK_CLIENT_SECRET := some "s3cr3t".data }
        (some { status := 200, access_token := some "tok123".data })).api_key =
      some "tok123".data :=
  keycloak_success_yields_keycloak_mode _ _ _ "tok123".data
    (by decide) (by decide) (by decide) (by decide) (by decide)
    (by decide) (by decide) (by decide) (by decide)

/-- C2 (code bug): with full Keycloak configuration and a static API key
available, a 200 token response whose JSON body lacks `access_token` leaves
the doc-summarization resolver in keycloak mode with an empty credential
(`token = None`), skipping the API-key tier — violating the non-empty
credential invariant — while code-translation on the same input correctly
falls through to api_key mode. -/
theorem docsum_200_missing_access_token_keeps_keycloak_mode :
    (dsInitAuth { BASE_URL := "http://gw".data, KEYCLOAK_CLIENT_ID := "api".data,
                  KEYCLOAK_CLIENT_SECRET := "s3cr3t".data,
                  INFERENCE_API_KEY := "key123".data, INFERENCE_MODEL_ENDPOINT := [] }
        (some { status := 200, access_token := none })).1.auth_mode =
      "keycloak".data ∧
    (dsInitAuth { BASE_URL := "http://gw".data, KEYCLOAK_CLIENT_ID := "api".data,
                  KEYCLOAK_CLIENT_SECRET := "s3cr3t".data,
                  INFERENCE_API_KEY := "key123".data, INFERENCE_MODEL_ENDPOINT := [] }
        (some { status := 200, access_token := none })).1.token = none ∧
    (ctInitAuth { BASE_URL := "http://gw".data, KEYCLOAK_CLIENT_ID := "api".data,
                  KEYCLOAK_CLIENT_SECRET := "s3cr3t".data,
                  INFERENCE_API_KEY := "key123".data, INFERENCE_MODEL_ENDPOINT := [] }
        (some { status := 200, access_token := none })).1.auth_mode =
      "api_key".data := by
  decide

/-- C3 (counterexample): with `BASE_URL` empty but client id and secret
set, rag-chatbot's auth resolution still executes the token request — its
guard (api_client.py lines 27-29) checks only the client id and secret, so
`requests.post` runs against `"/token"` — refuting "issues no token request
at all" for a missing baseUrl prerequisite. -/
theorem rag_missing_base_url_still_posts_token_request :
    AuthEvent.tokenRequest ∈
      (ragConfigureAuth { BASE_URL := [], EMBEDDINGS_BASE_URL := [],
                          KEYCLOAK_CLIENT_ID := "api".data,
                          KEYCLOAK_CLIENT_SECRET := "s3cr3t".data,
                          INFERENCE_API_KEY := [] } none).2 := by
  decide

/-- C3 (amended): in code-translation and doc-summarization, a
configuration missing any of the three Keycloak prerequisites issues no
token request, proceeds to the static-API-key tier, and the outcome is
independent of the network; in rag-chatbot the same holds when the client
id or the secret is missing (but not when only `BASE_URL` is missing — see
the counterexample); in the pdf-podcast LLM client a missing client id or
secret issues no token request and falls through to the static-API-key
tier (resolving to `inference_api_key` mode when a key is configured),
while a missing `BASE_URL` makes `__init__` return an unconfigured client
before either tier, never consulting `INFERENCE_API_KEY`. -/
theorem missing_keycloak_field_skips_token_request
    (cfg : GwConfig) (world world2 : TokenWorld)
    (rcfg : RagConfig) (rworld rworld2 : TokenWorld)
    (s s2 : LLMSettings) (lworld lworld2 : TokenWorld)
    (h : pyTruthy cfg.BASE_URL = false ∨ pyTruthy cfg.KEYCLOAK_CLIENT_ID = false ∨
         pyTruthy cfg.KEYCLOAK_CLIENT_SECRET = false)
    (hr : pyTruthy rcfg.KEYCLOAK_CLIENT_ID = false ∨
          pyTruthy rcfg.KEYCLOAK_CLIENT_SECRET = false)
    (hs : pyTruthy s.KEYCLOAK_CLIENT_ID = false ∨
          optTruthy s.KEYCLOAK_CLIENT_SECRET = false)
    (hsb : optTruthy s.BASE_URL = true)
    (hsk : optTruthy s.INFERENCE_API_KEY = true)
    (hs2 : optTruthy s2.BASE_URL = false) :
    AuthEvent.tokenRequest ∉ (ctInitAuth cfg world).2 ∧
    AuthEvent.apiKeyTier ∈ (ctInitAuth cfg world).2 ∧
    ctInitAuth cfg world = ctInitAuth cfg world2 ∧
    AuthEvent.tokenRequest ∉ (dsInitAuth cfg world).2 ∧
    AuthEvent.apiKeyTier ∈ (dsInitAuth cfg world).2 ∧
    dsInitAuth cfg world = dsInitAuth cfg world2 ∧
    AuthEvent.tokenRequest ∉ (ragConfigureAuth rcfg rworld).2 ∧
    ragConfigureAuth rcfg rworld = ragConfigureAuth rcfg rworld2 ∧
    llmInit s lworld = llmInit s lworld2 ∧
    (llmInit s lworld).auth_mode = "inference_api_key".data ∧
    (llmInit s lworld).api_key = s.INFERENCE_API_KEY ∧
    llmInit s2 lworld = { base_url := none, api_key := none,
                          auth_mode := "none".data, clientConfigured := false } := by
  have hg : ctKeycloakConfigured cfg = false := by
    unfold ctKeycloakConfigured
    rcases h with h | h | h <;> simp [h]
  have hgd : (pyTruthy cfg.BASE_URL && pyTruthy cfg.KEYCLOAK_CLIENT_ID &&
      pyTruthy cfg.KEYCLOAK_CLIENT_SECRET) = false := by
    rcases h with h | h | h <;> simp [h]
  have hrg : (pyTruthy rcfg.KEYCLOAK_CLIENT_ID &&
      pyTruthy rcfg.KEYCLOAK_CLIENT_SECRET) = false := by
    rcases hr with h | h <;> simp [h]
  have hsg : (pyTruthy s.KEYCLOAK_CLIENT_ID &&
      optTruthy s.KEYCLOAK_CLIENT_SECRET) = false := by
    rcases hs with h | h <;> simp [h]
  refine ⟨?_, ?_, ?_, ?_, ?_, ?_, ?_, ?_, ?_, ?_, ?_, ?_⟩
  · simp only [ctInitAuth, hg, Bool.false_eq_true, if_false, ctFallthrough]
    split <;> simp
  · simp only [ctInitAuth, hg, Bool.false_eq_true, if_false, ctFallthrough]
    split <;> simp
  · simp only [ctInitAuth, hg, Bool.false_eq_true, if_false]
  · simp only [dsInitAuth, hgd, Bool.false_eq_true, if_false]
    split <;> simp
  · simp only [dsInitAuth, hgd, Bool.false_eq_true, if_false]
    split <;> simp
  · simp only [dsInitAuth, hgd, Bool.false_eq_true, if_false]
  · simp only [ragConfigureAuth, ragTryKeycloakToken, hrg, Bool.not_false, if_true]
    split <;> simp
  · simp [ragConfigureAuth, ragTryKeycloakToken, hrg]
  · simp [llmInit, hsg, hsb, hsk, optTruthy_none]
  · simp [llmInit, hsg, hsb, hsk, optTruthy_none]
  · simp [llmInit, hsg, hsb, hsk, optTruthy_none]
  · simp [llmInit, hs2]

/-- C3 witness: the amended skip property at a concrete configuration with
an empty `BASE_URL` (code-translation and doc-summarization), an empty
client id (rag-chatbot), a missing Keycloak secret with a configured API
key, and a missing `BASE_URL` (pdf-podcast LLM client). -/
theorem missing_keycloak_field_skips_token_request_witness :
    AuthEvent.tokenRequest ∉
      (ctInitAuth { BASE_URL := [], KEYCLOAK_CLIENT_ID := "api".data,
                    KEYCLOAK_CLIENT_SECRET := "s3cr3t".data,
                    INFERENCE_API_KEY := "key123".data,
                    INFERENCE_MODEL_ENDPOINT := [] } none).2 ∧
    AuthEvent.apiKeyTier ∈
      (ctInitAuth { BASE_URL := [], KEYCLOAK_CLIENT_ID := "api".data,
                    KEYCLOAK_CLIENT_SECRET := "s3cr3t".data,
                    INFERENCE_API_KEY := "key123".data,
                    INFERENCE_MODEL_ENDPOINT := [] } none).2 ∧
    ctInitAuth { BASE_URL := [], KEYCLOAK_CLIENT_ID := "api".data,
                 KEYCLOAK_CLIENT_SECRET := "s3cr3t".data,
                 INFERENCE_API_KEY := "key123".data,
                 INFERENCE_MODEL_ENDPOINT := [] } none =
      ctInitAuth { BASE_URL := [], KEYCLOAK_CLIENT_ID := "api".data,
                   KEYCLOAK_CLIENT_SECRET := "s3cr3t".data,
                   INFERENCE_API_KEY := "key123".data,
                   INFERENCE_MODEL_ENDPOINT := [] }
        (some { status := 200, access_token := some "tok123".data }) ∧
    AuthEvent.tokenRequest ∉
      (dsInitAuth { BASE_URL := [], KEYCLOAK_CLIENT_ID := "api".data,
                    KEYCLOAK_CLIENT_SECRET := "s3cr3t".data,
                    INFERENCE_API_KEY := "key123".data,
                    INFERENCE_MODEL_ENDPOINT := [] } none).2 ∧
    AuthEvent.apiKeyTier ∈
      (dsInitAuth { BASE_URL := [], KEYCLOAK_CLIENT_ID := "api".data,
                    KEYCLOAK_CLIENT_SECRET := "s3cr3t".data,
                    INFERENCE_API_KEY := "key123".data,
                    INFERENCE_MODEL_ENDPOINT := [] } none).2 ∧
    dsInitAuth { BASE_URL := [], KEYCLOAK_CLIENT_ID := "api".data,
                 KEYCLOAK_CLIENT_SECRET := "s3cr3t".data,
                 INFERENCE_API_KEY := "key123".data,
                 INFERENCE_MODEL_ENDPOINT := [] } none =
      dsInitAuth { BASE_URL := [], KEYCLOAK_CLIENT_ID := "api".data,
                   KEYCLOAK_CLIENT_SECRET := "s3cr3t".data,
                   INFERENCE_API_KEY := "key123".data,
                   INFERENCE_MODEL_ENDPOINT := [] }
        (some { status := 200, access_token := some "tok123".data }) ∧
    AuthEvent.tokenRequest ∉
      (ragConfigureAuth { BASE_URL := "http://gw".data,
                          EMBEDDINGS_BASE_URL := "http://emb".data,
                          KEYCLOAK_CLIENT_ID := [],
                          KEYCLOAK_CLIENT_SECRET := "s3cr3t".data,
                          INFERENCE_API_KEY := "key123".data } none).2 ∧
    ragConfigureAuth { BASE_URL := "http://gw".data,
                       EMBEDDINGS_BASE_URL := "http://emb".data,
                       KEYCLOAK_CLIENT_ID := [],
                       KEYCLOAK_CLIENT_SECRET := "s3cr3t".data,
                       INFERENCE_API_KEY := "key123".data } none =
      ragConfigureAuth { BASE_URL := "http://gw".data,
                         EMBEDDINGS_BASE_URL := "http://emb".data,
                         KEYCLOAK_CLIENT_ID := [],
                         KEYCLOAK_CLIENT_SECRET := "s3cr3t".data,
                         INFERENCE_API_KEY := "key123".data }
        (some { status := 200, access_token := some "tok123".data }) ∧
    llmInit { BASE_URL := some "http://gw".data,
              INFERENCE_API_KEY := some "key123".data,
              KEYCLOAK_CLIENT_ID := "api".data,
              KEYCLOAK_CLIENT_SECRET := none } none =
      llmInit { BASE_URL := some "http://gw".data,
                INFERENCE_API_KEY := some "key123".data,
                KEYCLOAK_CLIENT_ID := "api".data,
                KEYCLOAK_CLIENT_SECRET := none }
        (some { status := 200, access_token := some "tok123".data }) ∧
    (llmInit { BASE_URL := some "http://gw".data,
               INFERENCE_API_KEY := some "key123".data,
               KEYCLOAK_CLIENT_ID := "api".data,
               KEYCLOAK_CLIENT_SECRET := none } none).auth_mode =
      "inference_api_key".data ∧
    (llmInit { BASE_URL := some "http://gw".data,
               INFERENCE_API_KEY := some "key123".data,
               KEYCLOAK_CLIENT_ID := "api".data,
               KEYCLOAK_CLIENT_SECRET := none } none).api_key =
      some "key123".data ∧
    llmInit { BASE_URL := none, INFERENCE_API_KEY := some "key123".data,
              KEYCLOAK_CLIENT_ID := "api".data,
              KEYCLOAK_CLIENT_SECRET := some "s3cr3t".data } none =
      { base_url := none, api_key := none, auth_mode := "none".data,
        clientConfigured := false } :=
  missing_keycloak_field_skips_token_request _ none
    (some { status := 200, access_token := some "tok123".data }) _ none
    (some { status := 200, access_token := some "tok123".data }) _ _ none
    (some { status := 200, access_token := some "tok123".data })
    (Or.inl (by decide)) (Or.inl (by decide)) (Or.inr (by decide))
    (by decide) (by decide) (by decide)

/-- C4 (counterexample): with neither Keycloak credentials nor a static
API key, rag-chatbot's auth resolution does not yield an open mode — it
raises `ValueError` — refuting "auth resolution succeeds and yields
mode=open" as a statement about every client. -/
theorem rag_no_auth_raises_value_error :
    (ragConfigureAuth { BASE_URL := "http://gw".data,
                        EMBEDDINGS_BASE_URL := "http://emb".data,
                        KEYCLOAK_CLIENT_ID := [], KEYCLOAK_CLIENT_SECRET := [],
                        INFERENCE_API_KEY := [] } none).1 =
      Except.error ragNoAuthMsg := by
  rfl

/-- C4 (amended): in code-translation (and doc-summarization), a
configuration without Keycloak credentials and without a static API key
resolves without raising to mode `open`, and the constructed OpenAI-style
client uses the non-empty sentinel `"no-auth"` as its bearer key;
rag-chatbot instead raises `ValueError` on the same configuration. -/
theorem ct_open_mode_no_auth_sentinel
    (cfg : GwConfig) (world : TokenWorld) (rcfg : RagConfig) (rworld : TokenWorld)
    (h1 : pyTruthy cfg.KEYCLOAK_CLIENT_ID = false ∨
          pyTruthy cfg.KEYCLOAK_CLIENT_SECRET = false)
    (h2 : pyTruthy cfg.INFERENCE_API_KEY = false)
    (h3 : pyTruthy cfg.BASE_URL = true)
    (h4 : pyTruthy rcfg.KEYCLOAK_CLIENT_ID = false ∨
          pyTruthy rcfg.KEYCLOAK_CLIENT_SECRET = false)
    (h5 : pyTruthy rcfg.INFERENCE_API_KEY = false) :
    (ctInitAuth cfg world).1.auth_mode = "open".data ∧
    (ctGetOpenaiClient (ctInitAuth cfg world).1 cfg.INFERENCE_MODEL_ENDPOINT).map
        OpenAIClientCfg.api_key = Except.ok "no-auth".data ∧
    (ragConfigureAuth rcfg rworld).1 = Except.error ragNoAuthMsg := by
  have hg : ctKeycloakConfigured cfg = false := by
    unfold ctKeycloakConfigured
    rcases h1 with h | h <;> simp [h]
  have hrg : (pyTruthy rcfg.KEYCLOAK_CLIENT_ID &&
      pyTruthy rcfg.KEYCLOAK_CLIENT_SECRET) = false := by
    rcases h4 with h | h <;> simp [h]
  have hc : ctInitAuth cfg world =
      ({ base_url := cfg.BASE_URL, token := none,
         api_key := cfg.INFERENCE_API_KEY, auth_mode := "open".data },
        [AuthEvent.apiKeyTier, AuthEvent.openTier]) := by
    simp [ctInitAuth, hg, ctFallthrough, h2]
  refine ⟨by rw [hc], ?_, ?_⟩
  · rw [hc]
    simp [ctGetOpenaiClient, h3, Except.map,
      (by decide : (("open".data : PyStr) == "keycloak".data) = false),
      (by decide : (("open".data : PyStr) == "api_key".data) = false)]
  · simp [ragConfigureAuth, ragTryKeycloakToken, hrg, h5]

/-- C4 witness: the amended open-mode property at a concrete configuration
with no Keycloak secret and no API key. -/
theorem ct_open_mode_no_auth_sentinel_witness :
    (ctInitAuth { BASE_URL := "http://gw".data, KEYCLOAK_CLIENT_ID := "api".data,
                  KEYCLOAK_CLIENT_SECRET := [], INFERENCE_API_KEY := [],
                  INFERENCE_MODEL_ENDPOINT := "v1/chat/completions".data }
        none).1.auth_mode = "open".data ∧
    (ctGetOpenaiClient
        (ctInitAuth { BASE_URL := "http://gw".data, KEYCLOAK_CLIENT_ID := "api".data,
                      KEYCLOAK_CLIENT_SECRET := [], INFERENCE_API_KEY := [],
                      INFERENCE_MODEL_ENDPOINT := "v1/chat/completions".data }
          none).1 "v1/chat/completions".data).map OpenAIClientCfg.api_key =
      Except.ok "no-auth".data ∧
    (ragConfigureAuth { BASE_URL := "http://gw".data,
                        EMBEDDINGS_BASE_URL := "http://emb".data,
                        KEYCLOAK_CLIENT_ID := "api".data,
                        KEYCLOAK_CLIENT_SECRET := [],
                        INFERENCE_API_KEY := [] } none).1 =
      Except.error ragNoAuthMsg :=
  ct_open_mode_no_auth_sentinel _ none _ none
    (Or.inr (by decide)) (by decide) (by decide) (Or.inr (by decide)) (by decide)

/-- C5 (counterexample): the code-translation generation call is NOT
retried.  With an attempt oracle whose first attempt fails and whose second
attempt would succeed, `translate_code` surfaces the first error to the
caller, while the pdf-podcast retry wrapper on the same oracle recovers
and returns the successful result. -/
theorem translate_code_single_attempt_surfaces_first_error :
    ctTranslateCode
        (fun n => if n == 0 then Except.error "boom".data
                  else Except.ok { choices := [{ message := { content := some "ok".data } }] }) =
      Except.error "boom".data ∧
    (fun n => if n == 0 then Except.error "boom".data
              else Except.ok { choices := [{ message := { content := some "ok".data } }] } :
        Nat → Except PyStr ChatResponse) 1 =
      Except.ok { choices := [{ message := { content := some "ok".data } }] } ∧
    llmGenerate true
        (fun n => if n == 0 then Except.error "boom".data
                  else Except.ok { choices := [{ message := { content := some "ok".data } }] }) =
      Except.ok "ok".data := by
  refine ⟨rfl, rfl, rfl⟩

/-- C5 (amended): only the pdf-podcast LLM call is retried: its result is
the first success among attempts 0, 1, 2, or the terminal attempt's error;
each backoff wait is clamped into the 4s-10s window; the code-translation
call consumes exactly its first attempt; and no retry wraps auth
resolution — each resolution trace holds at most one token request. -/
theorem retry_policy_llm_only
    (atts catts : Nat → Except PyStr ChatResponse)
    (cfg : GwConfig) (world : TokenWorld) (rcfg : RagConfig) (rworld : TokenWorld) :
    (llmGenerate true atts =
      match llmSingleCall (atts 0) with
      | Except.ok a => Except.ok a
      | Except.error _ =>
        match llmSingleCall (atts 1) with
        | Except.ok a => Except.ok a
        | Except.error _ => llmSingleCall (atts 2)) ∧
    (∀ n, 4 ≤ tenacityWaitExp n ∧ tenacityWaitExp n ≤ 10) ∧
    ctTranslateCode catts = ctTranslateAttempt (catts 0) ∧
    (ctInitAuth cfg world).2.count AuthEvent.tokenRequest ≤ 1 ∧
    (ragConfigureAuth rcfg rworld).2.count AuthEvent.tokenRequest ≤ 1 := by
  refine ⟨rfl, ?_, rfl, ?_, ?_⟩
  · intro n
    refine ⟨le_max_left 4 _, ?_⟩
    exact max_le (by norm_num) (min_le_right _ 10)
  · rcases world with _ | resp <;>
      simp only [ctInitAuth, ctFallthrough] <;>
      (repeat' split) <;> simp [List.count_cons, List.count_nil]
  · simp only [ragConfigureAuth, ragTryKeycloakToken]
    rcases rworld with _ | resp
    all_goals (repeat' split) <;> simp [List.count_cons, List.count_nil]
